import Mathlib

/-
Shallow embedding of src/script.js (webcam skin-wound capture with a
frame-quality gate).  The file contains an earlier revision of the script
(lines 1-141, with an explicit `preprocess` function) followed by the live
revision (lines 142-290, with the tf.js preprocessing chain inside
`runInference` and the 20-second grace timer in `updateUI`).  Both are
embedded below where a claim refers to them.

Numbers that the script manipulates (Date.now() milliseconds, pixel values,
tensor data) are modelled as rationals; all the arithmetic the claims touch
(comparisons, subtraction, division by constants) is exact on the inputs
involved, so no floating-point rounding is modelled.
-/

/-- script.js line 151: the labels array, in order: good_quality, blurry,
too_dark, poor_framing. -/
def labels : List String := ["good_quality", "blurry", "too_dark", "poor_framing"]

/-- script.js line 154: `const TIMEOUT_SECONDS = 20`. -/
def TIMEOUT_SECONDS : ℚ := 20

/-- JS `String.prototype.replace` with a *string* pattern replaces only the
first occurrence of the pattern; script.js line 266 uses it to replace the
underscore of the label with a space. -/
def jsReplaceFirst (s pat rep : String) : String :=
  match s.splitOn pat with
  | [] => s
  | [_] => s
  | x :: rest => x ++ rep ++ String.intercalate pat rest

/-- The mutable state read and written by `updateUI` (script.js lines 257-287):
the overlay message element (textContent / display), the capture button
(textContent / disabled) and the module variable `poorQualityStartTime`
(JS `null` is `none`; the stored value is a Date.now() millisecond count). -/
structure UIState where
  overlayText : String
  overlayVisible : Bool
  buttonText : String
  buttonDisabled : Bool
  poorQualityStartTime : Option ℚ
deriving DecidableEq

/-- script.js lines 257-287, the live `updateUI`.  `now` is the value of
`Date.now()` during this frame (the two calls on lines 273 and 276 happen in
the same synchronous handler and are modelled as the same instant). -/
def updateUI (predictedLabel : String) (now : ℚ) (s : UIState) : UIState :=
  if predictedLabel = "good_quality" then
    { s with overlayVisible := false
             buttonText := "Take Picture"
             buttonDisabled := false
             poorQualityStartTime := none }
  else
    let s1 : UIState :=
      { s with overlayText := "🚫 " ++ jsReplaceFirst predictedLabel "_" " " ++ " detected!"
               overlayVisible := true
               buttonText := "Take Anyway" }
    let start : ℚ := s1.poorQualityStartTime.getD now
    let s2 : UIState := { s1 with poorQualityStartTime := some start }
    let elapsedSeconds : ℚ := (now - start) / 1000
    if TIMEOUT_SECONDS ≤ elapsedSeconds then
      { s2 with overlayText := "You can take the picture now."
                buttonDisabled := false }
    else
      { s2 with buttonDisabled := true }

/-- One `updateUI` call per animation frame: a frame is the pair
(predictedLabel, Date.now()). -/
def runFrames (s : UIState) (frames : List (String × ℚ)) : UIState :=
  frames.foldl (fun s f => updateUI f.1 f.2 s) s

/-- Loop body of script.js `argmax` (lines 244-254): the accumulator is the
running (max, maxIndex) pair and `array[i] > max` is the strict comparison. -/
def argmaxStep (array : List ℚ) (acc : ℚ × ℕ) (i : ℕ) : ℚ × ℕ :=
  if acc.1 < array.getD i 0 then (array.getD i 0, i) else acc

/-- script.js `argmax` (lines 244-254): `max := array[0]`, `maxIndex := 0`,
then a loop over indices 1 … array.length-1.  On an empty array the JS code
reads `array[0]` as `undefined`, the loop body never executes, and 0 is
returned; the `getD` default plays the role of that never-compared value. -/
def argmax (array : List ℚ) : ℕ :=
  ((List.range' 1 (array.length - 1)).foldl (argmaxStep array) (array.getD 0 0, 0)).2

/-- What the `argmax` fold maintains over the scanned prefix: the accumulator
holds the value at its own index, the index is within `bound`, every scanned
entry is at most that value, and every entry strictly before the index is
strictly smaller (so the index is the first occurrence of the maximum). -/
def ArgmaxSpec (a : List ℚ) (bound : ℕ) (r : ℚ × ℕ) : Prop :=
  r.2 < bound ∧ r.1 = a.getD r.2 0 ∧
  (∀ j, j < bound → a.getD j 0 ≤ a.getD r.2 0) ∧
  (∀ j, j < r.2 → a.getD j 0 < a.getD r.2 0)

lemma argmax_fold_spec (a : List ℚ) :
    ∀ (n s m : ℕ), m < s →
      (∀ j, j < s → a.getD j 0 ≤ a.getD m 0) →
      (∀ j, j < m → a.getD j 0 < a.getD m 0) →
      ArgmaxSpec a (s + n) ((List.range' s n).foldl (argmaxStep a) (a.getD m 0, m)) := by
  intro n
  induction n with
  | zero =>
      intro s m hms hle hlt
      exact ⟨hms, rfl, hle, hlt⟩
  | succ n ih =>
      intro s m hms hle hlt
      rw [List.range'_succ, List.foldl_cons]
      by_cases hcmp : a.getD m 0 < a.getD s 0
      · have hstep : argmaxStep a (a.getD m 0, m) s = (a.getD s 0, s) := by
          show (if a.getD m 0 < a.getD s 0 then (a.getD s 0, s) else (a.getD m 0, m)) =
            (a.getD s 0, s)
          exact if_pos hcmp
        rw [hstep]
        have hrec := ih (s + 1) s (Nat.lt_succ_self s)
          (fun j hj => by
            rcases (by omega : j < s ∨ j = s) with h | h
            · exact le_of_lt (lt_of_le_of_lt (hle j h) hcmp)
            · subst h; exact le_rfl)
          (fun j hj => lt_of_le_of_lt (hle j hj) hcmp)
        have harith : s + 1 + n = s + (n + 1) := by omega
        rwa [harith] at hrec
      · have hstep : argmaxStep a (a.getD m 0, m) s = (a.getD m 0, m) := by
          show (if a.getD m 0 < a.getD s 0 then (a.getD s 0, s) else (a.getD m 0, m)) =
            (a.getD m 0, m)
          exact if_neg hcmp
        rw [hstep]
        have hrec := ih (s + 1) m (Nat.lt_succ_of_lt hms)
          (fun j hj => by
            rcases (by omega : j < s ∨ j = s) with h | h
            · exact hle j h
            · subst h; exact le_of_not_lt hcmp)
          hlt
        have harith : s + 1 + n = s + (n + 1) := by omega
        rwa [harith] at hrec

/-- C4: for every non-empty score array, `argmax` returns an in-range index
holding the maximum value, ties broken by first occurrence (every earlier
index holds a strictly smaller value); on scores [0.5, 0.5, 0.1, 0.1] it
returns index 0. -/
theorem C4_argmax_first_max (a : List ℚ) (h : a ≠ []) :
    argmax a < a.length ∧
    (∀ j, j < a.length → a.getD j 0 ≤ a.getD (argmax a) 0) ∧
    (∀ j, j < argmax a → a.getD j 0 < a.getD (argmax a) 0) ∧
    argmax [1/2, 1/2, 1/10, 1/10] = 0 := by
  have hlen : 0 < a.length := List.length_pos.mpr h
  have hspec := argmax_fold_spec a (a.length - 1) 1 0 Nat.zero_lt_one
      (fun j hj => by
        have hj0 : j = 0 := by omega
        subst hj0; exact le_rfl)
      (fun j hj => absurd hj (Nat.not_lt_zero j))
  have harith : 1 + (a.length - 1) = a.length := by omega
  rw [harith] at hspec
  obtain ⟨h1, _, h3, h4⟩ := hspec
  exact ⟨h1, h3, h4, by norm_num [argmax, argmaxStep, List.range']⟩

theorem C4_argmax_first_max_witness :
    ([1/2, 1/2, 1/10, 1/10] : List ℚ) ≠ [] ∧
    (argmax [1/2, 1/2, 1/10, 1/10] < ([1/2, 1/2, 1/10, 1/10] : List ℚ).length ∧
     (∀ j, j < ([1/2, 1/2, 1/10, 1/10] : List ℚ).length →
        List.getD ([1/2, 1/2, 1/10, 1/10] : List ℚ) j 0 ≤
          List.getD ([1/2, 1/2, 1/10, 1/10] : List ℚ) (argmax [1/2, 1/2, 1/10, 1/10]) 0) ∧
     (∀ j, j < argmax [1/2, 1/2, 1/10, 1/10] →
        List.getD ([1/2, 1/2, 1/10, 1/10] : List ℚ) j 0 <
          List.getD ([1/2, 1/2, 1/10, 1/10] : List ℚ) (argmax [1/2, 1/2, 1/10, 1/10]) 0) ∧
     argmax [1/2, 1/2, 1/10, 1/10] = 0) :=
  ⟨List.cons_ne_nil _ _, C4_argmax_first_max [1/2, 1/2, 1/10, 1/10] (List.cons_ne_nil _ _)⟩

/-- Observable outcome of one `runInference` animation-frame callback
(script.js lines 198-238): the resulting UI/gate state, whether the catch
block logged a prediction failure, and whether `requestAnimationFrame`
scheduled the next iteration. -/
structure IterOutput where
  ui : UIState
  loggedError : Bool
  nextScheduled : Bool
deriving DecidableEq

/-- One iteration of the prediction loop (script.js lines 198-238).
`frameResult` stands for everything the try-block does before `updateUI`:
`ok scores` when frame capture, preprocessing and `session.run` succeed and
produce output scores, `error e` when any of those steps throws.  The catch
only logs; `requestAnimationFrame(runInference)` runs on both paths. -/
def runInference (frameResult : Except String (List ℚ)) (now : ℚ)
    (ui : UIState) : IterOutput :=
  match frameResult with
  | .error _ => { ui := ui, loggedError := true, nextScheduled := true }
  | .ok scores =>
      let prediction := argmax scores
      let predictedLabel := labels.getD prediction "undefined"
      { ui := updateUI predictedLabel now ui
        loggedError := false
        nextScheduled := true }

/-- Module-level lifecycle state: the `modelLoaded` and `isPredicting` flags
(script.js lines 147-148) and the overlay element, plus two ghost observables:
whether the webcam was ever started, and how many prediction-loop instances
ever got past the guard of `startPredictionLoop` (incremented exactly where
script.js line 196 sets `isPredicting := true`). -/
structure AppState where
  modelLoaded : Bool
  isPredicting : Bool
  overlayText : String
  overlayVisible : Bool
  webcamStarted : Bool
  loopCount : ℕ
deriving DecidableEq

/-- script.js lines 192-196: the `startPredictionLoop` guard.  When the guard
passes, the ghost `loopCount` records that a loop instance started. -/
def startPredictionLoop (s : AppState) : AppState :=
  if !s.modelLoaded || s.isPredicting then s
  else { s with isPredicting := true, loopCount := s.loopCount + 1 }

/-- script.js lines 173-189 `startWebcam`.  `hasMediaDevices` models the
`navigator.mediaDevices && navigator.mediaDevices.getUserMedia` test (when it
fails the function does nothing at all); `cameraOk` models whether the
`getUserMedia` promise resolves.  On success the video plays and
`startPredictionLoop` runs; on rejection the fatal overlay is shown. -/
def startWebcam (hasMediaDevices cameraOk : Bool) (s : AppState) : AppState :=
  if hasMediaDevices then
    if cameraOk then
      startPredictionLoop { s with webcamStarted := true }
    else
      { s with overlayText := "Webcam access denied. Please enable it."
               overlayVisible := true }
  else s

/-- script.js lines 158-170 `initializeModel`.  `loadOk` models whether
`session.loadModel` resolves.  On success `modelLoaded` is set and
`startWebcam` is called; on failure the fatal overlay is shown and nothing
else happens. -/
def initializeModel (loadOk hasMediaDevices cameraOk : Bool)
    (s : AppState) : AppState :=
  if loadOk then
    startWebcam hasMediaDevices cameraOk { s with modelLoaded := true }
  else
    { s with overlayText := "Error loading model. Check console."
             overlayVisible := true }

/-- State at page load (script.js lines 146-155): both flags false, webcam not
started, no loop instance started.  The initial overlay text and visibility
come from the HTML, which is not part of src/, so they are parameters. -/
def initialAppState (overlayText0 : String) (overlayVisible0 : Bool) : AppState :=
  { modelLoaded := false, isPredicting := false
    overlayText := overlayText0, overlayVisible := overlayVisible0
    webcamStarted := false, loopCount := 0 }

/-- C6: if loading the model fails, the fatal overlay message is displayed and
the system halts at that stage: `startWebcam` is never reached (the webcam
stays unstarted) and no prediction loop ever starts. -/
theorem C6_model_load_failure_halts (overlayText0 : String)
    (overlayVisible0 hasMediaDevices cameraOk : Bool) :
    initializeModel false hasMediaDevices cameraOk
        (initialAppState overlayText0 overlayVisible0) =
      { modelLoaded := false, isPredicting := false
        overlayText := "Error loading model. Check console.", overlayVisible := true
        webcamStarted := false, loopCount := 0 } := by
  rfl

/-- C5: a frame whose processing throws leaves the UI and gate state
(including `poorQualityStartTime`) untouched, logs the failure, still
schedules the next iteration, and has no effect on how any later frame is
processed. -/
theorem C5_inference_failure_isolated (e : String) (now nowNext : ℚ)
    (ui : UIState) (nextResult : Except String (List ℚ)) :
    runInference (.error e) now ui =
      { ui := ui, loggedError := true, nextScheduled := true } ∧
    runInference nextResult nowNext ((runInference (.error e) now ui).ui) =
      runInference nextResult nowNext ui := by
  exact ⟨rfl, rfl⟩

/-- C9: on an empty model output, `argmax` reads `array[0]` without a length
check and its loop never runs, so it returns 0; index 0 is the label
good_quality, so an empty output enables capture with the default button
text. -/
theorem C9_empty_scores_good (now : ℚ) (ui : UIState) :
    argmax [] = 0 ∧
    labels.getD (argmax []) "undefined" = "good_quality" ∧
    (runInference (.ok []) now ui).ui.buttonDisabled = false ∧
    (runInference (.ok []) now ui).ui.buttonText = "Take Picture" := by
  refine ⟨rfl, rfl, ?_, ?_⟩ <;> rfl

lemma startPredictionLoop_counter (t : AppState)
    (h : t.loopCount ≤ 1 ∧ (t.loopCount = 1 → t.isPredicting = true)) :
    (startPredictionLoop t).loopCount ≤ 1 ∧
    ((startPredictionLoop t).loopCount = 1 →
      (startPredictionLoop t).isPredicting = true) := by
  unfold startPredictionLoop
  split
  · exact h
  · rename_i hguard
    have hpred : t.isPredicting = false := by
      cases hp : t.isPredicting
      · rfl
      · exact absurd (by simp [hp]) hguard
    have hcount : t.loopCount = 0 := by
      rcases Nat.le_one_iff_eq_zero_or_eq_one.mp h.1 with h0 | h1
      · exact h0
      · exact absurd (h.2 h1) (by simp [hpred])
    simp [hcount]

/-- C8: calling `startPredictionLoop` while a loop is already running or
before the model is loaded returns without changing anything, and from a fresh
state (no loop started yet) any number of calls starts at most one loop
instance. -/
theorem C8_single_loop (s : AppState) (n : ℕ)
    (hguard : s.isPredicting = true ∨ s.modelLoaded = false) :
    startPredictionLoop s = s ∧
    (∀ t : AppState, t.isPredicting = false → t.loopCount = 0 →
      (startPredictionLoop^[n] t).loopCount ≤ 1) := by
  constructor
  · unfold startPredictionLoop
    rcases hguard with h | h <;> simp [h]
  · intro t hpred hcount
    have hinv : ∀ k : ℕ, (startPredictionLoop^[k] t).loopCount ≤ 1 ∧
        ((startPredictionLoop^[k] t).loopCount = 1 →
          (startPredictionLoop^[k] t).isPredicting = true) := by
      intro k
      induction k with
      | zero => exact ⟨by simp [hcount], fun h1 => absurd (hcount ▸ h1) (by simp)⟩
      | succ k ih =>
          rw [Function.iterate_succ_apply']
          exact startPredictionLoop_counter _ ih
    exact (hinv n).1

theorem C8_single_loop_witness :
    ((⟨true, true, "", false, true, 1⟩ : AppState).isPredicting = true ∨
      (⟨true, true, "", false, true, 1⟩ : AppState).modelLoaded = false) ∧
    (startPredictionLoop ⟨true, true, "", false, true, 1⟩ =
        ⟨true, true, "", false, true, 1⟩ ∧
      (∀ t : AppState, t.isPredicting = false → t.loopCount = 0 →
        (startPredictionLoop^[5] t).loopCount ≤ 1)) :=
  ⟨Or.inl rfl, C8_single_loop ⟨true, true, "", false, true, 1⟩ 5 (Or.inl rfl)⟩

lemma runFrames_cons (s : UIState) (f : String × ℚ) (fs : List (String × ℚ)) :
    runFrames s (f :: fs) = runFrames (updateUI f.1 f.2 s) fs := rfl

lemma runFrames_append (s : UIState) (fs gs : List (String × ℚ)) :
    runFrames s (fs ++ gs) = runFrames (runFrames s fs) gs :=
  List.foldl_append _ _ _ _

/-- A non-good frame always leaves `poorQualityStartTime` set: to the value it
already had, or to the current time when it was unset (script.js 271-274). -/
lemma updateUI_nonGood_start (lab : String) (hlab : lab ≠ "good_quality")
    (t : ℚ) (s : UIState) :
    (updateUI lab t s).poorQualityStartTime =
      some (s.poorQualityStartTime.getD t) := by
  by_cases h20 : TIMEOUT_SECONDS ≤ (t - s.poorQualityStartTime.getD t) / 1000
  · simp [updateUI, hlab, h20]
  · simp [updateUI, hlab, h20]

/-- Along a run of non-good frames an already-set timestamp never changes. -/
lemma runFrames_start_some (fs : List (String × ℚ))
    (hfs : ∀ p ∈ fs, p.1 ≠ "good_quality") (s : UIState) (a : ℚ)
    (hs : s.poorQualityStartTime = some a) :
    (runFrames s fs).poorQualityStartTime = some a := by
  induction fs generalizing s with
  | nil => exact hs
  | cons f fs ih =>
      rw [runFrames_cons]
      refine ih (fun p hp => hfs p (List.mem_cons_of_mem f hp)) _ ?_
      rw [updateUI_nonGood_start f.1 (hfs f (List.mem_cons_self f fs)) f.2 s, hs]
      rfl

/-- On a non-good frame the button/overlay outcome is decided solely by the
elapsed-time comparison against the 20-second grace period. -/
lemma updateUI_nonGood_outcome (lab : String) (hlab : lab ≠ "good_quality")
    (t : ℚ) (s : UIState) :
    ((t - s.poorQualityStartTime.getD t) / 1000 < TIMEOUT_SECONDS →
        (updateUI lab t s).buttonDisabled = true) ∧
    (TIMEOUT_SECONDS ≤ (t - s.poorQualityStartTime.getD t) / 1000 →
        (updateUI lab t s).buttonDisabled = false ∧
        (updateUI lab t s).overlayText = "You can take the picture now." ∧
        (updateUI lab t s).overlayVisible = true) := by
  by_cases h20 : TIMEOUT_SECONDS ≤ (t - s.poorQualityStartTime.getD t) / 1000
  · exact ⟨fun hlt => absurd h20 (not_le.mpr hlt),
      fun _ => by simp [updateUI, hlab, h20]⟩
  · exact ⟨fun _ => by simp [updateUI, hlab, h20], fun hge => absurd hge h20⟩

/-- C3: after any history of frames, the poor-quality timestamp is unset iff
the frame just processed was good_quality (the most recent non-good streak is
not ongoing); a single good_quality frame clears the timestamp, re-enables
capture, hides the overlay, and restores the default button text. -/
theorem C3_streak_invariant (s : UIState) (hist : List (String × ℚ))
    (lab : String) (t : ℚ) :
    ((runFrames s (hist ++ [(lab, t)])).poorQualityStartTime = none ↔
        lab = "good_quality") ∧
    (lab = "good_quality" →
        runFrames s (hist ++ [(lab, t)]) =
          { overlayText := (runFrames s hist).overlayText
            overlayVisible := false
            buttonText := "Take Picture"
            buttonDisabled := false
            poorQualityStartTime := none }) := by
  rw [runFrames_append]
  by_cases hlab : lab = "good_quality"
  · subst hlab
    exact ⟨⟨fun _ => rfl, fun _ => rfl⟩, fun _ => rfl⟩
  · constructor
    · rw [show runFrames (runFrames s hist) [(lab, t)] =
          updateUI lab t (runFrames s hist) from rfl,
        updateUI_nonGood_start lab hlab t (runFrames s hist)]
      simp [hlab]
    · intro h
      exact absurd h hlab

/-- C10: every non-good frame sets the capture button text to "Take Anyway"
before the timer check and the timed-out branch never resets it, so in the
timed-out state the button still reads "Take Anyway" while the overlay shows
the neutral message; "Take Picture" comes back only on a good_quality
frame. -/
theorem C10_take_anyway_text (s : UIState) (lab : String) (t : ℚ)
    (hlab : lab ≠ "good_quality") :
    (updateUI lab t s).buttonText = "Take Anyway" ∧
    (TIMEOUT_SECONDS ≤ (t - s.poorQualityStartTime.getD t) / 1000 →
        (updateUI lab t s).overlayText = "You can take the picture now." ∧
        (updateUI lab t s).buttonDisabled = false) ∧
    (updateUI "good_quality" t s).buttonText = "Take Picture" := by
  refine ⟨?_, fun h20 => ⟨((updateUI_nonGood_outcome lab hlab t s).2 h20).2.1,
      ((updateUI_nonGood_outcome lab hlab t s).2 h20).1⟩, rfl⟩
  by_cases h20 : TIMEOUT_SECONDS ≤ (t - s.poorQualityStartTime.getD t) / 1000 <;>
    simp [updateUI, hlab, h20]

theorem C10_take_anyway_text_witness :
    "blurry" ≠ "good_quality" ∧
    ((updateUI "blurry" 25000 ⟨"", true, "Take Anyway", true, some 0⟩).buttonText =
        "Take Anyway" ∧
      (TIMEOUT_SECONDS ≤
          ((25000 : ℚ) -
            (⟨"", true, "Take Anyway", true, some 0⟩ :
              UIState).poorQualityStartTime.getD 25000) / 1000 →
        (updateUI "blurry" 25000
            ⟨"", true, "Take Anyway", true, some 0⟩).overlayText =
          "You can take the picture now." ∧
        (updateUI "blurry" 25000
            ⟨"", true, "Take Anyway", true, some 0⟩).buttonDisabled = false) ∧
      (updateUI "good_quality" 25000
          ⟨"", true, "Take Anyway", true, some 0⟩).buttonText = "Take Picture") :=
  ⟨by decide,
    C10_take_anyway_text ⟨"", true, "Take Anyway", true, some 0⟩ "blurry" 25000
      (by decide)⟩

/-- C1: starting from a state with no poor-quality timestamp, a run of
continuously non-good frames whose first frame is at time T0 behaves so:
after processing any frame of the run, at the time T of that frame, capture is
disabled when (T - T0)/1000 < 20 and enabled with the neutral "you may
proceed" overlay when (T - T0)/1000 ≥ 20 — hence it stays enabled on every
later non-good frame whose time also satisfies the bound. -/
theorem C1_grace_period_timeout (s0 : UIState)
    (h0 : s0.poorQualityStartTime = none)
    (frames : List (String × ℚ))
    (hng : ∀ p ∈ frames, p.1 ≠ "good_quality")
    (t0 : ℚ) (ht0 : frames.head?.map Prod.snd = some t0)
    (i : ℕ) (hi : i < frames.length) :
    (((frames.get ⟨i, hi⟩).2 - t0) / 1000 < TIMEOUT_SECONDS →
        (runFrames s0 (frames.take (i + 1))).buttonDisabled = true) ∧
    (TIMEOUT_SECONDS ≤ ((frames.get ⟨i, hi⟩).2 - t0) / 1000 →
        (runFrames s0 (frames.take (i + 1))).buttonDisabled = false ∧
        (runFrames s0 (frames.take (i + 1))).overlayText =
          "You can take the picture now." ∧
        (runFrames s0 (frames.take (i + 1))).overlayVisible = true) := by
  rcases frames with _ | ⟨⟨l0, u0⟩, rest⟩
  · exact absurd ht0 (by simp)
  · have hu0 : u0 = t0 := by simpa using ht0
    subst hu0
    have hl0 : l0 ≠ "good_quality" := hng (l0, u0) (List.mem_cons_self _ _)
    have hs1 : (updateUI l0 u0 s0).poorQualityStartTime = some u0 := by
      rw [updateUI_nonGood_start l0 hl0 u0 s0, h0]
      rfl
    cases i with
    | zero =>
        have houtcome := updateUI_nonGood_outcome l0 hl0 u0 s0
        rw [h0] at houtcome
        simp only [Option.getD_none] at houtcome
        exact houtcome
    | succ k =>
        have hk : k < rest.length := by simpa using hi
        have htake : rest.take (k + 1) = rest.take k ++ [rest.get ⟨k, hk⟩] := by
          rw [List.take_succ, List.getElem?_eq_getElem hk]
          rfl
        have hpre : (runFrames (updateUI l0 u0 s0) (rest.take k)).poorQualityStartTime
            = some u0 :=
          runFrames_start_some _
            (fun p hp => hng p (List.mem_cons_of_mem _ (List.take_subset k rest hp)))
            _ u0 hs1
        have hlast : (rest.get ⟨k, hk⟩).1 ≠ "good_quality" :=
          hng _ (List.mem_cons_of_mem _ (List.get_mem rest k hk))
        have houtcome := updateUI_nonGood_outcome _ hlast (rest.get ⟨k, hk⟩).2
          (runFrames (updateUI l0 u0 s0) (rest.take k))
        rw [hpre] at houtcome
        simp only [Option.getD_some] at houtcome
        have hstate : runFrames s0 (((l0, u0) :: rest).take (k + 1 + 1)) =
            updateUI (rest.get ⟨k, hk⟩).1 (rest.get ⟨k, hk⟩).2
              (runFrames (updateUI l0 u0 s0) (rest.take k)) := by
          rw [List.take_succ_cons, runFrames_cons, htake, runFrames_append]
          rfl
        rw [hstate]
        exact houtcome

theorem C1_grace_period_timeout_witness :
    (∀ p ∈ [("blurry", (0 : ℚ)), ("too_dark", 25000)], p.1 ≠ "good_quality") ∧
    ((((25000 : ℚ) - 0) / 1000 < TIMEOUT_SECONDS →
        (runFrames ⟨"", false, "Take Picture", false, none⟩
            [("blurry", (0 : ℚ)), ("too_dark", 25000)]).buttonDisabled = true) ∧
      (TIMEOUT_SECONDS ≤ ((25000 : ℚ) - 0) / 1000 →
        (runFrames ⟨"", false, "Take Picture", false, none⟩
            [("blurry", (0 : ℚ)), ("too_dark", 25000)]).buttonDisabled = false ∧
        (runFrames ⟨"", false, "Take Picture", false, none⟩
            [("blurry", (0 : ℚ)), ("too_dark", 25000)]).overlayText =
          "You can take the picture now." ∧
        (runFrames ⟨"", false, "Take Picture", false, none⟩
            [("blurry", (0 : ℚ)), ("too_dark", 25000)]).overlayVisible = true)) :=
  ⟨by decide,
    C1_grace_period_timeout ⟨"", false, "Take Picture", false, none⟩ rfl
      [("blurry", (0 : ℚ)), ("too_dark", 25000)] (by decide) 0 rfl 1 (by decide)⟩

/-- An in-flight image tensor of shape [rows, cols, 3]: value at
(row, col, channel). -/
abbrev Img3 : Type := ℕ → ℕ → ℕ → ℚ

/-- Per-channel normalization constants of script.js lines 205 and 92. -/
def meanRGB : List ℚ := [0.485, 0.456, 0.406]

/-- Per-channel normalization constants of script.js lines 206 and 93. -/
def stdRGB : List ℚ := [0.229, 0.224, 0.225]

/-- tf.js `resizeBilinear([224, 224])` with the default alignCorners = false,
halfPixelCenters = false: output pixel (y, x) has source coordinate
(y·H/224, x·W/224); the four neighbours at the floor/ceil coordinates (ceil
clamped to the last row/column) are blended bilinearly.  The input of shape
[H, W, 3] comes from `tf.browser.fromPixels(video)` (channel values
0..255). -/
def resizeBilinear (H W : ℕ) (img : Img3) : Img3 := fun y x c =>
  let sy : ℚ := y * ((H : ℚ) / 224)
  let sx : ℚ := x * ((W : ℚ) / 224)
  let y0 : ℕ := (⌊sy⌋).toNat
  let y1 : ℕ := min (⌈sy⌉).toNat (H - 1)
  let x0 : ℕ := (⌊sx⌋).toNat
  let x1 : ℕ := min (⌈sx⌉).toNat (W - 1)
  let dy : ℚ := sy - y0
  let dx : ℚ := sx - x0
  let top : ℚ := img y0 x0 c + (img y0 x1 c - img y0 x0 c) * dx
  let bottom : ℚ := img y1 x0 c + (img y1 x1 c - img y1 x0 c) * dx
  top + (bottom - top) * dy

/-- Models `.toFloat()`: numerically the identity in this rational model. -/
def toFloat (img : Img3) : Img3 := img

/-- Models `.div(tf.scalar(q))`: divide every entry by q. -/
def divScalar (q : ℚ) (img : Img3) : Img3 := fun y x c => img y x c / q

/-- Models `.sub(tf.tensor1d(v))`: a length-3 vector broadcasts along the
trailing channel axis of a [·, ·, 3] tensor. -/
def subTensor1d (v : List ℚ) (img : Img3) : Img3 := fun y x c =>
  img y x c - v.getD c 0

/-- Models `.div(tf.tensor1d(v))`: broadcast division along the channel
axis. -/
def divTensor1d (v : List ℚ) (img : Img3) : Img3 := fun y x c =>
  img y x c / v.getD c 0

/-- Models `.expandDims()`: prepend a batch axis of size 1,
[H,W,3] → [1,H,W,3]. -/
def expandDims (img : Img3) : ℕ → ℕ → ℕ → ℕ → ℚ := fun n y x c =>
  if n = 0 then img y x c else 0

/-- Models `.transpose([0, 3, 1, 2])`: output index (a, b, c, d) reads input
index (a, c, d, b), turning a [1, 224, 224, 3] tensor into [1, 3, 224, 224]. -/
def transpose0312 (t : ℕ → ℕ → ℕ → ℕ → ℚ) : ℕ → ℕ → ℕ → ℕ → ℚ :=
  fun a b c d => t a c d b

/-- Models `await transposedTensor.data()`: the row-major flattening of a
[1, 3, 224, 224] tensor, as a function from flat offset to entry. -/
def tensorData4 (t : ℕ → ℕ → ℕ → ℕ → ℚ) : ℕ → ℚ := fun i =>
  t (i / (3 * 224 * 224)) (i / (224 * 224) % 3) (i / 224 % 224) (i % 224)

/-- Models `new onnx.Tensor(data, float32, dims)`: raw data plus declared
shape. -/
structure OnnxTensor where
  data : ℕ → ℚ
  dims : List ℕ

/-- The preprocessing chain of the live `runInference` (script.js lines
200-216): fromPixels → resizeBilinear([224,224]) → toFloat → div 255 →
sub mean → div std → expandDims → transpose([0,3,1,2]) → data →
onnx.Tensor with dims [1,3,224,224]. -/
def runInferencePreprocess (H W : ℕ) (video : Img3) : OnnxTensor :=
  let imageTensor :=
    expandDims (divTensor1d stdRGB (subTensor1d meanRGB
      (divScalar 255 (toFloat (resizeBilinear H W video)))))
  let transposedTensor := transpose0312 imageTensor
  { data := tensorData4 transposedTensor, dims := [1, 3, 224, 224] }

/-- The planar channel-first entry (c, y, x) of the produced tensor is the
normalized value of the resized frame at row y, column x, channel c. -/
lemma runInferencePreprocess_data (H W : ℕ) (video : Img3) (c y x : ℕ)
    (hc : c < 3) (hy : y < 224) (hx : x < 224) :
    (runInferencePreprocess H W video).data (c * (224 * 224) + y * 224 + x) =
      (resizeBilinear H W video y x c / 255 - meanRGB.getD c 0) /
        stdRGB.getD c 0 := by
  have h0 : (c * (224 * 224) + y * 224 + x) / (3 * 224 * 224) = 0 := by omega
  have h1 : (c * (224 * 224) + y * 224 + x) / (224 * 224) % 3 = c := by omega
  have h2 : (c * (224 * 224) + y * 224 + x) / 224 % 224 = y := by omega
  have h3 : (c * (224 * 224) + y * 224 + x) % 224 = x := by omega
  simp only [runInferencePreprocess, tensorData4, h0, h1, h2, h3,
    transpose0312, expandDims, divTensor1d, subTensor1d, divScalar, toFloat,
    if_pos rfl, if_true]

/-- C2: the live preprocessing chain outputs a tensor of shape [1,3,224,224]
whose entry at planar channel-first offset c·224·224 + y·224 + x equals the
224×224 bilinear resample of the camera frame at (y, x, c), scaled from
[0,255] to [0,1], minus mean[c], divided by std[c]: the interleaved
[1,224,224,3] data has been reordered to planar channel-first layout. -/
theorem C2_preprocess_pipeline (H W : ℕ) (video : Img3) (c y x : ℕ)
    (hc : c < 3) (hy : y < 224) (hx : x < 224) :
    (runInferencePreprocess H W video).dims = [1, 3, 224, 224] ∧
    (runInferencePreprocess H W video).data (c * (224 * 224) + y * 224 + x) =
      (resizeBilinear H W video y x c / 255 - meanRGB.getD c 0) /
        stdRGB.getD c 0 :=
  ⟨rfl, runInferencePreprocess_data H W video c y x hc hy hx⟩

theorem C2_preprocess_pipeline_witness :
    (0 : ℕ) < 3 ∧ (0 : ℕ) < 224 ∧ (5 : ℕ) < 224 ∧
    ((runInferencePreprocess 224 224 (fun _ _ _ => 128)).dims =
        [1, 3, 224, 224] ∧
      (runInferencePreprocess 224 224 (fun _ _ _ => 128)).data
          (0 * (224 * 224) + 0 * 224 + 5) =
        (resizeBilinear 224 224 (fun _ _ _ => 128) 0 5 0 / 255 -
            meanRGB.getD 0 0) / stdRGB.getD 0 0) :=
  ⟨by decide, by decide, by decide,
    C2_preprocess_pipeline 224 224 (fun _ _ _ => 128) 0 0 5
      (by decide) (by decide) (by decide)⟩

/-- One step of the `preprocess` loop body of the earlier revision (script.js lines
101-105): from the RGBA bytes at `index`, the three normalized channel values
are appended in R, G, B order. -/
def preprocessPixel (data : ℕ → ℚ) (index : ℕ) : List ℚ :=
  [(data (index + 0) / 255 - 0.485) / 0.229,
   (data (index + 1) / 255 - 0.456) / 0.224,
   (data (index + 2) / 255 - 0.406) / 0.225]

/-- The Float32Array built by `preprocess` in the earlier revision (script.js
lines 90-111): rows, then columns, three values per pixel — the data stays in
interleaved pixel order. -/
def preprocessTensorData (data : ℕ → ℚ) (width height : ℕ) : List ℚ :=
  (List.range height).flatMap fun h =>
    (List.range width).flatMap fun w =>
      preprocessPixel data ((h * width + w) * 4)

/-- In the earlier revision, `preprocess` returns
`new onnx.Tensor(tensorData, float32, [1, 3, height, width])`. -/
def preprocess (data : ℕ → ℚ) (width height : ℕ) : OnnxTensor :=
  { data := fun i => (preprocessTensorData data width height).getD i 0
    dims := [1, 3, height, width] }

lemma flatMap_const {α β : Type} (l : List α) (g : List β) :
    (l.flatMap fun _ => g) = (List.replicate l.length g).flatten := by
  induction l with
  | nil => rfl
  | cons a l ih =>
      rw [List.flatMap_cons, ih, List.length_cons, List.replicate_succ,
        List.flatten_cons]

lemma flatten_replicate_flatten {β : Type} (a b : ℕ) (g : List β) :
    (List.replicate a (List.replicate b g).flatten).flatten =
      (List.replicate (a * b) g).flatten := by
  induction a with
  | zero => rw [Nat.zero_mul]; rfl
  | succ a ih =>
      rw [List.replicate_succ, List.flatten_cons, ih,
        show (a + 1) * b = b + a * b by ring, List.replicate_add,
        List.flatten_append]

lemma flatten_replicate_triple_getD (a b c : ℚ) :
    ∀ (n i : ℕ), i < 3 * n →
      ((List.replicate n [a, b, c]).flatten).getD i 0 =
        [a, b, c].getD (i % 3) 0 := by
  intro n
  induction n with
  | zero => intro i hi; omega
  | succ n ih =>
      intro i hi
      rw [List.replicate_succ, List.flatten_cons]
      by_cases h3 : i < 3
      · rw [List.getD_append _ _ _ _ (by simpa using h3), Nat.mod_eq_of_lt h3]
      · rw [List.getD_append_right _ _ _ _ (by simpa using Nat.le_of_not_lt h3)]
        have hrec := ih (i - 3) (by omega)
        simp only [List.length_cons, List.length_nil] at *
        rw [show i - (0 + 1 + 1 + 1) = i - 3 by omega, hrec,
          show (i - 3) % 3 = i % 3 by omega]

/-- On a constant image, bilinear interpolation returns that constant. -/
lemma resizeBilinear_const (H W : ℕ) (q : ℚ) (y x c : ℕ) :
    resizeBilinear H W (fun _ _ _ => q) y x c = q := by
  simp [resizeBilinear]

/-- C7: a uniform gray frame (128,128,128) preprocesses to exactly
(128/255 − mean[c]) / std[c] for channel c: in the live tf.js chain every
planar channel-c entry of the output tensor has that value, and in the
`preprocess` of the earlier revision the value written for channel k of every
pixel (slot 3·p + k of the Float32Array) has that value.  Equality is exact
over ℚ, hence within any floating-point tolerance. -/
theorem C7_gray_frame_normalization (H W : ℕ) (c y x : ℕ)
    (hc : c < 3) (hy : y < 224) (hx : x < 224)
    (width height p k : ℕ) (hp : p < height * width) (hk : k < 3) :
    (runInferencePreprocess H W (fun _ _ _ => 128)).data
        (c * (224 * 224) + y * 224 + x) =
      ((128 : ℚ) / 255 - meanRGB.getD c 0) / stdRGB.getD c 0 ∧
    (preprocess (fun _ => 128) width height).data (p * 3 + k) =
      ((128 : ℚ) / 255 - meanRGB.getD k 0) / stdRGB.getD k 0 := by
  constructor
  · rw [runInferencePreprocess_data H W _ c y x hc hy hx,
      resizeBilinear_const H W 128 y x c]
  · have hlist : preprocessTensorData (fun _ => 128) width height =
        (List.replicate (height * width)
          [((128 : ℚ) / 255 - 0.485) / 0.229, ((128 : ℚ) / 255 - 0.456) / 0.224,
           ((128 : ℚ) / 255 - 0.406) / 0.225]).flatten := by
      unfold preprocessTensorData
      have hrow : (fun h => (List.range width).flatMap fun w =>
          preprocessPixel (fun _ => 128) ((h * width + w) * 4)) =
          fun _ : ℕ => (List.replicate width
            [((128 : ℚ) / 255 - 0.485) / 0.229, ((128 : ℚ) / 255 - 0.456) / 0.224,
             ((128 : ℚ) / 255 - 0.406) / 0.225]).flatten := by
        funext h
        have hpix : (fun w => preprocessPixel (fun _ => 128) ((h * width + w) * 4)) =
            fun _ : ℕ =>
              [((128 : ℚ) / 255 - 0.485) / 0.229, ((128 : ℚ) / 255 - 0.456) / 0.224,
               ((128 : ℚ) / 255 - 0.406) / 0.225] := by
          funext w
          rfl
        rw [hpix, flatMap_const, List.length_range]
      rw [hrow, flatMap_const, List.length_range, flatten_replicate_flatten]
    show (preprocessTensorData (fun _ => 128) width height).getD (p * 3 + k) 0 = _
    rw [hlist,
      flatten_replicate_triple_getD _ _ _ (height * width) (p * 3 + k) (by omega),
      show (p * 3 + k) % 3 = k by omega]
    interval_cases k <;> rfl

theorem C7_gray_frame_normalization_witness :
    (1 : ℕ) < 3 ∧ (0 : ℕ) < 224 ∧ (5 : ℕ) < 224 ∧ (7 : ℕ) < 224 * 224 ∧
      (2 : ℕ) < 3 ∧
    ((runInferencePreprocess 224 224 (fun _ _ _ => 128)).data
        (1 * (224 * 224) + 0 * 224 + 5) =
      ((128 : ℚ) / 255 - meanRGB.getD 1 0) / stdRGB.getD 1 0 ∧
    (preprocess (fun _ => 128) 224 224).data (7 * 3 + 2) =
      ((128 : ℚ) / 255 - meanRGB.getD 2 0) / stdRGB.getD 2 0) :=
  ⟨by decide, by decide, by decide, by decide, by decide,
    C7_gray_frame_normalization 224 224 1 0 5 (by decide) (by decide) (by decide)
      224 224 7 2 (by decide) (by decide)⟩
